import Mathlib

/-!
Verification development for the grid-world multi-agent learning testbed
(`agente.py`, `agenteqlearning.py`, `agentegenetico.py`).

Shallow embedding conventions:
* Python `float` values are modelled with `ℚ` (all arithmetic the claims
  touch is exact field arithmetic on literals).
* Python `dict`s keyed by strings are modelled as association lists in
  insertion order, mirroring CPython's insertion-ordered dictionaries.
* Python `set`s of `(x, y)` positions are modelled as `Finset (ℤ × ℤ)`.
* Randomness (`random.random`, `random.randint`, `random.choice`) is
  modelled by passing the drawn value as an explicit argument, with the
  admissible range recorded as a hypothesis.
* File input in `carregar_q_table` is modelled by a `LoadResult` sum type
  describing the three outcomes of the open/parse sequence.
-/

namespace AAProjeto

/-- Direction enumeration from `ambiente.py` (`class Direcao(Enum)`):
NORTE, SUL, ESTE, OESTE plus the neutral PARADO = (0, 0). -/
inductive Direcao
  | NORTE
  | SUL
  | ESTE
  | OESTE
  | PARADO
deriving DecidableEq, Repr

/-- Action from `ambiente.py` (`class Acao`): a type tag and a parameter map.
Every action the agents under study build is `Acao("mover", {'direcao': d})`,
so the parameter map is modelled by its single direction entry; the
`agente_id` field (set later by the runner) is not modelled. -/
structure Acao where
  tipo : String
  direcao : Direcao
deriving DecidableEq, Repr

/-- Helper for the ubiquitous `Acao("mover", {'direcao': d})` constructor calls. -/
def mover (d : Direcao) : Acao := ⟨"mover", d⟩

/-- Observation from `ambiente.py` (`class Observacao`): a sensory-data map.
The two pieces of the map the claims depend on are modelled as fields:
`posicao_atual` (present or absent in `dados`, read by `Agente.observacao`)
and the discrete state key this observation abstracts to.  The key is the
value `AgenteQLearning._extrair_estado` would compute
(`agenteqlearning.py` lines 168-231); that numpy/float direction-binning
code is deterministic in the observation, so the embedding carries its
result in the observation rather than re-deriving it. -/
structure Observacao where
  posicao_atual : Option (ℤ × ℤ)
  estadoKey : String
deriving DecidableEq, Repr

/-- State key extraction, `AgenteQLearning._extrair_estado`; see `Observacao`. -/
def extrairEstado (obs : Observacao) : String := obs.estadoKey

/-- Per-instance state installed by `Agente.__init__` (`agente.py` lines
97-134).  `sensores` is omitted: the claims never install sensors and a
sensor only adds auxiliary keys to the observation map.  The vestigial
`Thread`/`ativo`/`pausado` machinery is likewise outside every claim. -/
structure AgenteState where
  observacao_atual : Option Observacao
  recompensa_acumulada : ℚ
  recompensa_ultimo_passo : ℚ
  historico_observacoes : List Observacao
  historico_acoes : List Acao
  historico_recompensas : List ℚ
  caixa_mensagens : List String
  behavior : Finset (ℤ × ℤ)
  path : List (ℤ × ℤ)
  novelty_score : ℚ
  objective_fitness : ℚ
  combined_fitness : ℚ

/-- Fresh base-agent state, as left by `Agente.__init__`. -/
def Agente.init : AgenteState :=
  { observacao_atual := none
    recompensa_acumulada := 0
    recompensa_ultimo_passo := 0
    historico_observacoes := []
    historico_acoes := []
    historico_recompensas := []
    caixa_mensagens := []
    behavior := ∅
    path := []
    novelty_score := 0
    objective_fitness := 0
    combined_fitness := 0 }

/-- Embeds `Agente.observacao(self, obs)` (`agente.py` lines 159-181): store the
observation, append it to the history, and when the data map carries a
`posicao_atual` tuple add it to the behaviour set and append it to the
path.  The trailing sensor loop only writes `sensor_*` keys into the
observation's data map, which the embedding does not track. -/
def Agente.observacao (s : AgenteState) (obs : Observacao) : AgenteState :=
  let s1 := { s with observacao_atual := some obs
                     historico_observacoes := s.historico_observacoes ++ [obs] }
  match obs.posicao_atual with
  | some pos => { s1 with behavior := insert pos s1.behavior
                          path := s1.path ++ [pos] }
  | none => s1

/-- Embeds `Agente.reset` (`agente.py` lines 314-328). -/
def Agente.reset (s : AgenteState) : AgenteState :=
  { s with observacao_atual := none
           recompensa_acumulada := 0
           recompensa_ultimo_passo := 0
           historico_observacoes := []
           historico_acoes := []
           historico_recompensas := []
           behavior := ∅
           path := []
           novelty_score := 0
           objective_fitness := 0
           combined_fitness := 0
           caixa_mensagens := [] }

/-- Embeds `Agente._jaccard_distance` (`agente.py` lines 352-365):
`1 - intersection / union if union != 0 else 0`. -/
def jaccard_distance (s1 s2 : Finset (ℤ × ℤ)) : ℚ :=
  let intersection : ℚ := ((s1 ∩ s2).card : ℚ)
  let union : ℚ := ((s1 ∪ s2).card : ℚ)
  if union ≠ 0 then 1 - intersection / union else 0

/-- Ascending sort of rational distances, modelling Python's `sorted` /
`list.sort()` on floats. -/
def sortQ (l : List ℚ) : List ℚ := l.mergeSort (fun a b => decide (a ≤ b))

/-- Embeds `Agente.calculate_novelty(archive, k)` (`agente.py` lines 332-350).
Returns the score together with the updated agent state: on an empty
archive the method returns 1.0 immediately (without touching
`novelty_score`); otherwise it sorts the Jaccard distances to the archive
and stores the mean of the `k` smallest (all of them when fewer than `k`). -/
def Agente.calculate_novelty (s : AgenteState) (archive : List (Finset (ℤ × ℤ)))
    (k : ℕ) : ℚ × AgenteState :=
  if archive.isEmpty then (1, s)
  else
    let distances := sortQ (archive.map (fun b => jaccard_distance s.behavior b))
    let score :=
      if k ≤ distances.length then (distances.take k).sum / (k : ℚ)
      else distances.sum / (distances.length : ℚ)
    (score, { s with novelty_score := score })

/-- The per-individual novelty computation inlined in
`PopulacaoEvolucionaria._avaliar_populacao` (`agentegenetico.py` lines
425-440), as a function of the archive, the individual's behaviour set and
`k_vizinhos`: when both the archive and the behaviour set are non-empty it
averages the `min k (archive size)` smallest Jaccard distances; a first
(archive-empty) behaviour scores 1.0 and an empty behaviour scores 0.0. -/
def noveltyAvaliar (arquivo : List (Finset (ℤ × ℤ))) (behavior : Finset (ℤ × ℤ))
    (k_vizinhos : ℕ) : ℚ :=
  if ¬arquivo.isEmpty ∧ behavior ≠ ∅ then
    let distancias := arquivo.map (fun c => jaccard_distance behavior c)
    if ¬distancias.isEmpty then
      let k_proximos := (sortQ distancias).take (min k_vizinhos distancias.length)
      if ¬k_proximos.isEmpty then k_proximos.sum / (k_proximos.length : ℚ) else 0
    else 1
  else if behavior ≠ ∅ then 1 else 0

/-- Instance state added by `AgenteEvolucionario.__init__`
(`agentegenetico.py` lines 24-50) on top of the base-agent state.
`melhor_fitness` starts at `float('-inf')`, modelled by `⊥` in `WithBot ℚ`;
`num_steps` is only consulted to draw a random genotype when none is
supplied, and the embedding always supplies the genotype explicitly. -/
structure EvoState where
  base : AgenteState
  genotype : List Direcao
  passo_atual : ℕ
  taxa_mutacao : ℚ
  recursos_coletados : ℕ
  objetivos_alcancados : ℕ
  historico_fitness : List ℚ
  episodio_atual : ℕ
  melhor_fitness : WithBot ℚ
  genotipo_melhor : Option (List Direcao)

/-- Embeds `AgenteEvolucionario.__init__(agente_id, parametros, genotype)` with an
explicitly supplied genotype; the mutation-rate parameter stands for
`parametros['taxa_mutacao']`. -/
def Evo.init (genotype : List Direcao) (taxa_mutacao : ℚ) : EvoState :=
  { base := Agente.init
    genotype := genotype
    passo_atual := 0
    taxa_mutacao := taxa_mutacao
    recursos_coletados := 0
    objetivos_alcancados := 0
    historico_fitness := []
    episodio_atual := 0
    melhor_fitness := ⊥
    genotipo_melhor := none }

/-- Embeds `AgenteEvolucionario.age` (`agentegenetico.py` lines 52-65): when the
step cursor has reached the genotype length return the neutral PARADO move
without touching the state; otherwise return the gene at the cursor and
advance the cursor. -/
def Evo.age (s : EvoState) : Acao × EvoState :=
  if h : s.passo_atual < s.genotype.length then
    (mover s.genotype[s.passo_atual], { s with passo_atual := s.passo_atual + 1 })
  else
    (mover Direcao.PARADO, s)

/-- Iterated `age` calls: the list of returned actions of `n` successive
calls, together with the final state. -/
def Evo.ageRun : EvoState → ℕ → List Acao × EvoState
  | s, 0 => ([], s)
  | s, n + 1 =>
    let p := Evo.age s
    let q := Evo.ageRun p.2 n
    (p.1 :: q.1, q.2)

/-- Embeds `AgenteEvolucionario.calculate_objective_fitness` (`agentegenetico.py`
lines 76-99).  Returns the score and the state with `objective_fitness`
assigned. -/
def Evo.calculate_objective_fitness (s : EvoState) : ℚ × EvoState :=
  let fitness := s.base.recompensa_acumulada
  let exploracao_bonus : ℚ := (s.base.behavior.card : ℚ) * 2
  let recursos_bonus : ℚ := (s.recursos_coletados : ℚ) * 50
  let objetivos_bonus : ℚ := (s.objetivos_alcancados : ℚ) * 200
  let movimento_unico_razao : ℚ := (s.base.behavior.card : ℚ) / ((max s.base.path.length 1 : ℕ) : ℚ)
  let exploracao_pena : ℚ := if movimento_unico_razao < 3/10 then -100 else 0
  let score := fitness + exploracao_bonus + recursos_bonus + objetivos_bonus + exploracao_pena
  (score, { s with base := { s.base with objective_fitness := score } })

/-- Embeds `AgenteEvolucionario.clonar` (`agentegenetico.py` lines 121-135): a
fresh agent constructed from the same parameters and a copy of the
genotype. -/
def Evo.clonar (s : EvoState) : EvoState := Evo.init s.genotype s.taxa_mutacao

/-- Embeds `AgenteEvolucionario.reset` (`agentegenetico.py` lines 158-163):
`super().reset()` plus clearing the step cursor and the resource/goal
counters. -/
def Evo.reset (s : EvoState) : EvoState :=
  { s with base := Agente.reset s.base
           passo_atual := 0
           recursos_coletados := 0
           objetivos_alcancados := 0 }

/-- Module-level `crossover(parent1, parent2)` (`agentegenetico.py` lines
254-285).  `point` stands for the draw `random.randint(1, len(parent1.genotype) - 1)`,
made only on the non-degenerate branch; the guard on the degenerate branch
inspects `parent1.genotype` alone. -/
def crossover (parent1 parent2 : EvoState) (point : ℕ) : EvoState × EvoState :=
  if parent1.genotype.length < 2 then
    (Evo.clonar parent1, Evo.clonar parent2)
  else
    let child1_geno := parent1.genotype.take point ++ parent2.genotype.drop point
    let child2_geno := parent2.genotype.take point ++ parent1.genotype.drop point
    (Evo.init child1_geno parent1.taxa_mutacao, Evo.init child2_geno parent2.taxa_mutacao)

/-- Embeds `PopulacaoEvolucionaria._atualizar_arquivo` (`agentegenetico.py` lines
499-511): sort the population by pure novelty score, descending (Python's
`sorted(..., reverse=True)`), and append the behaviour records of the top
`min(5, population size)` individuals to the archive. -/
def atualizarArquivo (arquivo : List (Finset (ℤ × ℤ))) (populacao : List EvoState) :
    List (Finset (ℤ × ℤ)) :=
  let pop_ordenada_novelty :=
    populacao.mergeSort (fun a b => decide (b.base.novelty_score ≤ a.base.novelty_score))
  let n_adicionar := min 5 pop_ordenada_novelty.length
  arquivo ++ (pop_ordenada_novelty.take n_adicionar).map (fun a => a.base.behavior)

/-- A Q-table row: insertion-ordered map from action name to Q-value. -/
abbrev QRow := List (String × ℚ)

/-- The Q-table: insertion-ordered map from state key to row
(`self.Q : Dict[str, Dict[str, float]]`). -/
abbrev QTable := List (String × QRow)

/-- Dictionary lookup, `d[k]` / `k in d`. -/
def dictGet (l : List (String × α)) (k : String) : Option α :=
  (l.find? (fun p => p.1 == k)).map (fun p => p.2)

/-- Dictionary assignment `d[k] = v`: overwrite in place when the key is
present, append otherwise (CPython insertion order). -/
def dictSet (l : List (String × α)) (k : String) (v : α) : List (String × α) :=
  if l.any (fun p => p.1 == k) then
    l.map (fun p => if p.1 == k then (k, v) else p)
  else
    l ++ [(k, v)]

/-- The lazily materialized zero row
`{d.name: 0.0 for d in self.acoes_disponiveis}` with
`acoes_disponiveis = [NORTE, SUL, ESTE, OESTE]`. -/
def zeroRow : QRow := [("NORTE", 0), ("SUL", 0), ("ESTE", 0), ("OESTE", 0)]

/-- Embeds `max(row.values())`.  Python's `max` raises on an empty dict; every row
this development applies it to is the four-entry `zeroRow` shape, so the
default 0 of `Option.getD` is never consulted. -/
def rowMax (row : QRow) : ℚ := ((row.map Prod.snd).max?).getD 0

/-- Instance state added by `AgenteQLearning.__init__` (`agenteqlearning.py`
lines 25-61) on top of the base-agent state, with the documented defaults
available via `QL.init`. -/
structure QLState where
  base : AgenteState
  modo_aprendizagem : Bool
  alpha : ℚ
  gamma : ℚ
  epsilon : ℚ
  epsilon_min : ℚ
  epsilon_decay : ℚ
  Q : QTable
  episodio_atual : ℕ
  recompensas_por_episodio : List ℚ
  passos_por_episodio : List ℕ
  estado_anterior : Option String
  acao_anterior : Option String

/-- Embeds `AgenteQLearning.__init__` with no parameter overrides and no
`ficheiro_modelo`: learning mode, alpha 0.1, gamma 0.95, epsilon 1.0,
epsilon_min 0.01, epsilon_decay 0.995, empty Q-table, no pending pair. -/
def QL.init : QLState :=
  { base := Agente.init
    modo_aprendizagem := true
    alpha := 1/10
    gamma := 19/20
    epsilon := 1
    epsilon_min := 1/100
    epsilon_decay := 199/200
    Q := []
    episodio_atual := 0
    recompensas_por_episodio := []
    passos_por_episodio := []
    estado_anterior := none
    acao_anterior := none }

/-- Embeds `AgenteQLearning._processar_recompensa` (`agenteqlearning.py` lines
280-312): no-op outside learning mode, with no pending
(state, action) pair, or with no current observation; otherwise extract the
current state key, materialize its zero row when absent, and apply the
Q-learning update to the pending entry.  The nested subscripts
`Q[s_prev][a_prev]` raise `KeyError` when absent, modelled by `none`. -/
def QL.processarRecompensa (s : QLState) (recompensa : ℚ) : Option QLState :=
  if s.modo_aprendizagem = false then some s
  else
    match s.estado_anterior, s.acao_anterior with
    | some sprev, some aprev =>
      match s.base.observacao_atual with
      | none => some s
      | some obs =>
        let estado_atual := extrairEstado obs
        let Q1 := if (dictGet s.Q estado_atual).isNone then dictSet s.Q estado_atual zeroRow
                  else s.Q
        match dictGet Q1 sprev with
        | none => none
        | some row =>
          match dictGet row aprev with
          | none => none
          | some Q_sa =>
            let max_Q_next := rowMax ((dictGet Q1 estado_atual).getD [])
            let novo_Q := Q_sa + s.alpha * (recompensa + s.gamma * max_Q_next - Q_sa)
            some { s with Q := dictSet Q1 sprev (dictSet row aprev novo_Q) }
    | _, _ => some s

/-- Embeds `AgenteQLearning.observacao(self, obs, recompensa=0.0)`
(`agenteqlearning.py` lines 154-166).  Its first statement is
`super().observacao(obs, recompensa)`, but the base method
`Agente.observacao(self, obs)` (`agente.py` line 159) is declared with
`obs` as the only parameter, so in Python this call raises
`TypeError` before any state is touched or any Q-update runs; the whole
method is therefore that error. -/
def QL.observacao (_s : QLState) (_obs : Observacao) (_recompensa : ℚ) :
    Except String QLState :=
  Except.error "TypeError"

/-- Embeds `AgenteQLearning.fim_episodio` (`agenteqlearning.py` lines 314-327):
bump the episode counter, decay epsilon only in learning mode, and append
the episode's accumulated reward and action count to the statistics. -/
def QL.fimEpisodio (s : QLState) : QLState :=
  let s1 := { s with episodio_atual := s.episodio_atual + 1 }
  let s2 :=
    if s1.modo_aprendizagem then
      { s1 with epsilon := max s1.epsilon_min (s1.epsilon * s1.epsilon_decay) }
    else s1
  { s2 with
    recompensas_por_episodio := s2.recompensas_por_episodio ++ [s2.base.recompensa_acumulada]
    passos_por_episodio := s2.passos_por_episodio ++ [s2.base.historico_acoes.length] }

/-- Embeds `AgenteQLearning.definir_modo` (`agenteqlearning.py` lines 329-339):
set the mode flag, and force epsilon to 0 when entering evaluation mode. -/
def QL.definirModo (s : QLState) (aprendizagem : Bool) : QLState :=
  let s1 := { s with modo_aprendizagem := aprendizagem }
  if aprendizagem then s1 else { s1 with epsilon := 0 }

/-- Reset of the RL policy: `AgenteQLearning` has no `reset` override, so resetting it runs
`Agente.reset` on the base-class attributes and touches nothing else. -/
def QL.reset (s : QLState) : QLState := { s with base := Agente.reset s.base }

/-- Outcome of the open/parse sequence in `carregar_q_table`: the file is
absent, the file opens but `json.load` (or the read) raises, or a table is
parsed successfully. -/
inductive LoadResult
  | missing
  | malformed
  | ok (tabela : QTable)

/-- Embeds `AgenteQLearning.carregar_q_table` (`agenteqlearning.py` lines
359-380): a missing file sets `self.Q = {}` and returns; any exception
while opening/parsing is caught and sets `self.Q = {}`; a successful parse
replaces `self.Q` with the loaded table.  No other attribute is written —
in particular `modo_aprendizagem` is left as configured. -/
def QL.carregarQTable (s : QLState) (r : LoadResult) : QLState :=
  match r with
  | LoadResult.missing => { s with Q := [] }
  | LoadResult.malformed => { s with Q := [] }
  | LoadResult.ok tabela => { s with Q := tabela }

/-- The implicit invariant of claim C10: the behaviour set holds exactly
the positions recorded in the path. -/
def behaviorPathInv (s : AgenteState) : Prop := s.behavior = s.path.toFinset

/-- Gene-provenance property: every gene of `c` agrees with the gene of
`a` or of `b` at the same index. -/
def genesFromParents (c a b : List Direcao) : Prop :=
  ∀ i : ℕ, i < c.length →
    c.getD i Direcao.PARADO = a.getD i Direcao.PARADO ∨
    c.getD i Direcao.PARADO = b.getD i Direcao.PARADO

/-- The degenerate-crossover behaviour of the code: whenever the FIRST
parent's genotype has fewer than 2 genes, both parents are cloned
(whatever the second parent's genotype looks like). -/
def cloneGuard : Prop :=
  ∀ (q1 q2 : EvoState) (pt : ℕ), q1.genotype.length < 2 →
    crossover q1 q2 pt = (Evo.clonar q1, Evo.clonar q2)

/-- A concrete observation used in witnesses: position (3, 4), abstracted
state key `E_M_0000`. -/
def obsExemplo : Observacao := ⟨some (3, 4), "E_M_0000"⟩

/-- C1: the tabular RL policy cannot update its Q-table on reward delivery,
because `AgenteQLearning.observacao` forwards `(obs, recompensa)` to
`Agente.observacao`, which accepts only `obs`; evaluating the embedded
method at a learning-mode state with a pending (state, action) pair and a
non-zero reward yields the `TypeError`, not a Q-update. -/
theorem C1_typeerror_on_reward_delivery :
    QL.observacao
      { QL.init with estado_anterior := some "E_M_0000", acao_anterior := some "NORTE" }
      obsExemplo 5 = Except.error "TypeError" := rfl

/-- C3 counterexample: the claim says the agent-level novelty of an EMPTY
behaviour set against an empty archive is 0.0, but
`Agente.calculate_novelty` returns 1.0 before ever looking at the
behaviour set. -/
theorem C3_counterexample :
    Agente.init.behavior = ∅ ∧ (Agente.calculate_novelty Agente.init [] 5).1 ≠ 0 := by
  exact ⟨rfl, by decide⟩

/-- C3 (amended): against an empty archive `Agente.calculate_novelty`
returns 1.0 for every behaviour set (empty included), while the population
manager's per-individual computation returns 1.0 for a non-empty behaviour
set and 0.0 for an empty one. -/
theorem C3_empty_archive_novelty (s : AgenteState) (b : Finset (ℤ × ℤ)) (k : ℕ) :
    (Agente.calculate_novelty s [] k).1 = 1 ∧
    noveltyAvaliar [] b k = (if b = ∅ then 0 else 1) := by
  constructor
  · simp [Agente.calculate_novelty]
  · by_cases hb : b = ∅ <;> simp [noveltyAvaliar, hb]

/-- In evaluation mode `fim_episodio` changes neither the mode flag nor
epsilon. -/
lemma fimEpisodio_eval_mode (s : QLState) (h : s.modo_aprendizagem = false) :
    (QL.fimEpisodio s).modo_aprendizagem = false ∧ (QL.fimEpisodio s).epsilon = s.epsilon := by
  simp [QL.fimEpisodio, h]

/-- Iterating `fim_episodio` from an evaluation-mode state never changes
the mode flag or epsilon. -/
lemma iterate_fimEpisodio_eval_mode (n : ℕ) :
    ∀ s : QLState, s.modo_aprendizagem = false →
      (QL.fimEpisodio^[n] s).modo_aprendizagem = false ∧
      (QL.fimEpisodio^[n] s).epsilon = s.epsilon := by
  induction n with
  | zero => intro s h; simp [h]
  | succ m ih =>
    intro s h
    rw [Function.iterate_succ_apply]
    obtain ⟨h1, h2⟩ := fimEpisodio_eval_mode s h
    obtain ⟨h3, h4⟩ := ih (QL.fimEpisodio s) h1
    exact ⟨h3, by rw [h4, h2]⟩

/-- C4: in learning mode each `fim_episodio` call sets epsilon to
`max(epsilon_min, epsilon * epsilon_decay)`, so epsilon never ends a call
below `epsilon_min`; after `definir_modo(False)` the policy's epsilon is 0
and stays 0 under any further number of `fim_episodio` calls. -/
theorem C4_epsilon_decay_boundary (s : QLState) (n : ℕ) (h : s.modo_aprendizagem = true) :
    (QL.fimEpisodio s).epsilon = max s.epsilon_min (s.epsilon * s.epsilon_decay) ∧
    s.epsilon_min ≤ (QL.fimEpisodio s).epsilon ∧
    (QL.definirModo s false).epsilon = 0 ∧
    (QL.fimEpisodio^[n] (QL.definirModo s false)).epsilon = 0 := by
  have hmode : (QL.definirModo s false).modo_aprendizagem = false := by
    simp [QL.definirModo]
  have heps : (QL.definirModo s false).epsilon = 0 := by
    simp [QL.definirModo]
  have hdecay : (QL.fimEpisodio s).epsilon = max s.epsilon_min (s.epsilon * s.epsilon_decay) := by
    simp [QL.fimEpisodio, h]
  refine ⟨hdecay, ?_, heps, ?_⟩
  · rw [hdecay]; exact le_max_left _ _
  · rw [(iterate_fimEpisodio_eval_mode n _ hmode).2, heps]

/-- C4 witness: the decay boundary at the freshly constructed policy, with
three post-switch episodes. -/
theorem C4_epsilon_decay_boundary_witness :
    QL.init.modo_aprendizagem = true ∧
    ((QL.fimEpisodio QL.init).epsilon = max QL.init.epsilon_min (QL.init.epsilon * QL.init.epsilon_decay) ∧
     QL.init.epsilon_min ≤ (QL.fimEpisodio QL.init).epsilon ∧
     (QL.definirModo QL.init false).epsilon = 0 ∧
     (QL.fimEpisodio^[3] (QL.definirModo QL.init false)).epsilon = 0) :=
  ⟨rfl, C4_epsilon_decay_boundary QL.init 3 rfl⟩

/-- C7: the genotype policy's objective fitness equals accumulated reward
plus 2 per distinct visited cell, 50 per collected resource and 200 per
reached goal, minus 100 exactly when the visited-cells/path-length ratio
(denominator clamped to at least 1) is below 0.3; the clamped denominator
is positive, so the computation is total, and the score is also stored in
the `objective_fitness` field. -/
theorem C7_objective_fitness (s : EvoState) :
    (Evo.calculate_objective_fitness s).1 =
      s.base.recompensa_acumulada + 2 * (s.base.behavior.card : ℚ)
        + 50 * (s.recursos_coletados : ℚ) + 200 * (s.objetivos_alcancados : ℚ)
        + (if (s.base.behavior.card : ℚ) / ((max s.base.path.length 1 : ℕ) : ℚ) < 3/10
           then -100 else 0) ∧
    (0 : ℚ) < ((max s.base.path.length 1 : ℕ) : ℚ) ∧
    (Evo.calculate_objective_fitness s).2.base.objective_fitness =
      (Evo.calculate_objective_fitness s).1 := by
  refine ⟨?_, ?_, rfl⟩
  · unfold Evo.calculate_objective_fitness
    dsimp only
    split <;> ring
  · have h1 : 0 < max s.base.path.length 1 := lt_of_lt_of_le one_pos (le_max_right _ _)
    exact_mod_cast h1

/-- C8: `reset` clears exactly the per-episode state (current observation,
accumulated reward, histories, behaviour set, path, fitness scores, and —
for the genotype agent — step cursor and resource/goal counters) and
leaves the persistent learning state untouched: Q-table, epsilon, alpha,
gamma, episode counter and per-episode statistics for the RL policy;
genotype, fitness history and best-ever genotype/fitness for the
evolutionary agent. -/
theorem C8_reset_frame (q : QLState) (e : EvoState) :
    (QL.reset q).base.observacao_atual = none ∧
    (QL.reset q).base.recompensa_acumulada = 0 ∧
    (QL.reset q).base.historico_observacoes = [] ∧
    (QL.reset q).base.historico_acoes = [] ∧
    (QL.reset q).base.historico_recompensas = [] ∧
    (QL.reset q).base.behavior = ∅ ∧
    (QL.reset q).base.path = [] ∧
    (QL.reset q).base.novelty_score = 0 ∧
    (QL.reset q).base.objective_fitness = 0 ∧
    (QL.reset q).base.combined_fitness = 0 ∧
    (QL.reset q).Q = q.Q ∧
    (QL.reset q).epsilon = q.epsilon ∧
    (QL.reset q).alpha = q.alpha ∧
    (QL.reset q).gamma = q.gamma ∧
    (QL.reset q).episodio_atual = q.episodio_atual ∧
    (QL.reset q).recompensas_por_episodio = q.recompensas_por_episodio ∧
    (QL.reset q).passos_por_episodio = q.passos_por_episodio ∧
    (Evo.reset e).passo_atual = 0 ∧
    (Evo.reset e).recursos_coletados = 0 ∧
    (Evo.reset e).objetivos_alcancados = 0 ∧
    (Evo.reset e).base.behavior = ∅ ∧
    (Evo.reset e).base.path = [] ∧
    (Evo.reset e).base.recompensa_acumulada = 0 ∧
    (Evo.reset e).genotype = e.genotype ∧
    (Evo.reset e).historico_fitness = e.historico_fitness ∧
    (Evo.reset e).melhor_fitness = e.melhor_fitness ∧
    (Evo.reset e).genotipo_melhor = e.genotipo_melhor ∧
    (Evo.reset e).episodio_atual = e.episodio_atual ∧
    (Evo.reset e).taxa_mutacao = e.taxa_mutacao := by
  repeat' constructor

/-- C9 counterexample: for a policy configured in evaluation mode, a
missing model file leaves the empty Q-table but the policy does NOT
continue in learning mode — the mode flag stays `false`, refuting the
claim that after a failed load "the run continues in learning mode". -/
theorem C9_counterexample :
    (QL.carregarQTable { QL.init with modo_aprendizagem := false } LoadResult.missing).Q = [] ∧
    (QL.carregarQTable { QL.init with modo_aprendizagem := false }
        LoadResult.missing).modo_aprendizagem = false :=
  ⟨rfl, rfl⟩

/-- C9 (amended): loading a persisted Q-table from a missing or malformed
source never raises: the policy falls back to the empty table, only a
successful load replaces the table's contents, and the learning/evaluation
mode flag is left exactly as configured (so a run configured for learning
continues learning). -/
theorem C9_load_fallback (s : QLState) (r : LoadResult) :
    (QL.carregarQTable s r).modo_aprendizagem = s.modo_aprendizagem ∧
    (QL.carregarQTable s r).Q =
      (match r with
       | LoadResult.ok tabela => tabela
       | LoadResult.missing => []
       | LoadResult.malformed => []) := by
  cases r <;> exact ⟨rfl, rfl⟩

/-- Behaviour of `n` successive `age` calls from an arbitrary in-bounds
cursor: the calls emit the remaining genotype suffix (up to `n` genes) as
move actions followed by PARADO padding, and the only state change is the
cursor advancing to `min (cursor + n) (genotype length)`. -/
lemma ageRun_spec (n : ℕ) :
    ∀ s : EvoState, s.passo_atual ≤ s.genotype.length →
      (Evo.ageRun s n).1 =
        ((s.genotype.drop s.passo_atual).take n).map mover
          ++ List.replicate (n - (s.genotype.length - s.passo_atual)) (mover Direcao.PARADO) ∧
      (Evo.ageRun s n).2 =
        { s with passo_atual := min (s.passo_atual + n) s.genotype.length } := by
  induction n with
  | zero =>
    intro s h
    refine ⟨by simp [Evo.ageRun], ?_⟩
    show s = _
    rw [Nat.add_zero, Nat.min_eq_left h]
  | succ m ih =>
    intro s h
    by_cases hlt : s.passo_atual < s.genotype.length
    · have hage : Evo.age s =
          (mover s.genotype[s.passo_atual],
            { s with passo_atual := s.passo_atual + 1 }) := by
        simp [Evo.age, hlt]
      obtain ⟨ih1, ih2⟩ := ih { s with passo_atual := s.passo_atual + 1 } hlt
      have hdrop : s.genotype.drop s.passo_atual =
          s.genotype[s.passo_atual] :: s.genotype.drop (s.passo_atual + 1) :=
        List.drop_eq_getElem_cons hlt
      have hcount : m + 1 - (s.genotype.length - s.passo_atual) =
          m - (s.genotype.length - (s.passo_atual + 1)) := by omega
      constructor
      · show (Evo.age s).1 :: (Evo.ageRun (Evo.age s).2 m).1 = _
        rw [hage]
        dsimp only
        rw [ih1, hdrop, List.take_succ_cons, List.map_cons, hcount]
        rfl
      · show (Evo.ageRun (Evo.age s).2 m).2 = _
        rw [hage]
        dsimp only
        rw [ih2]
        have harith : s.passo_atual + 1 + m = s.passo_atual + (m + 1) := by omega
        rw [harith]
    · have heq : s.passo_atual = s.genotype.length := le_antisymm h (not_lt.mp hlt)
      have hage : Evo.age s = (mover Direcao.PARADO, s) := by
        simp [Evo.age, hlt]
      obtain ⟨ih1, ih2⟩ := ih s h
      constructor
      · show (Evo.age s).1 :: (Evo.ageRun (Evo.age s).2 m).1 = _
        rw [hage]
        dsimp only
        rw [ih1, heq, List.drop_length]
        simp [List.replicate_succ]
      · show (Evo.ageRun (Evo.age s).2 m).2 = _
        rw [hage]
        dsimp only
        rw [ih2, heq]
        have h1 : min (s.genotype.length + m) s.genotype.length = s.genotype.length := by omega
        have h2 : min (s.genotype.length + (m + 1)) s.genotype.length = s.genotype.length := by
          omega
        rw [h1, h2]

/-- C2: starting from a freshly reset cursor, `n` calls to `age` return the
genotype's actions in positional order followed by neutral PARADO moves
once the genotype is exhausted; the cursor never passes the genotype
length, the genotype itself is never modified, and no out-of-range access
occurs (the embedding is total). -/
theorem C2_genotype_bounds_safety (s : EvoState) (h : s.passo_atual = 0) (n : ℕ) :
    (Evo.ageRun s n).1 =
      (s.genotype.take n).map mover
        ++ List.replicate (n - s.genotype.length) (mover Direcao.PARADO) ∧
    (Evo.ageRun s n).2 = { s with passo_atual := min n s.genotype.length } ∧
    (Evo.ageRun s n).2.genotype = s.genotype := by
  obtain ⟨h1, h2⟩ := ageRun_spec n s (by rw [h]; exact Nat.zero_le _)
  rw [h] at h1 h2
  simp only [List.drop_zero, Nat.sub_zero, Nat.zero_add] at h1 h2
  exact ⟨h1, h2, by rw [h2]⟩

/-- A concrete genotype policy used in the C2 witness. -/
def sEvoW : EvoState := Evo.init [Direcao.NORTE, Direcao.SUL] 0

/-- C2 witness: a 2-gene genotype driven for 4 steps emits both genes and
then PARADO twice, leaving the cursor at 2 and the genotype intact. -/
theorem C2_genotype_bounds_safety_witness :
    sEvoW.passo_atual = 0 ∧
    ((Evo.ageRun sEvoW 4).1 =
       (sEvoW.genotype.take 4).map mover
         ++ List.replicate (4 - sEvoW.genotype.length) (mover Direcao.PARADO) ∧
     (Evo.ageRun sEvoW 4).2 = { sEvoW with passo_atual := min 4 sEvoW.genotype.length } ∧
     (Evo.ageRun sEvoW 4).2.genotype = sEvoW.genotype) :=
  ⟨rfl, C2_genotype_bounds_safety sEvoW rfl 4⟩

/-- C10: in every reachable agent state the behaviour set equals the set
of positions of the recorded path: the invariant holds initially, is
preserved by `observacao` and by `reset`, and forces the distinct-cell
count to be at most the path length, so the visited-cell ratio used by the
objective fitness is at most 1. -/
theorem C10_behavior_path_invariant (s : AgenteState) (obs : Observacao)
    (h : behaviorPathInv s) :
    behaviorPathInv (Agente.observacao s obs) ∧
    behaviorPathInv (Agente.reset s) ∧
    behaviorPathInv Agente.init ∧
    s.behavior.card ≤ s.path.length ∧
    (s.behavior.card : ℚ) / ((max s.path.length 1 : ℕ) : ℚ) ≤ 1 := by
  have hcard : s.behavior.card ≤ s.path.length := by
    rw [h]; exact s.path.toFinset_card_le
  refine ⟨?_, ?_, ?_, hcard, ?_⟩
  · unfold behaviorPathInv Agente.observacao
    cases hobs : obs.posicao_atual with
    | none => simpa using h
    | some pos =>
      simp only
      rw [h]
      simp [List.toFinset_append, Finset.insert_eq, Finset.union_comm]
  · unfold behaviorPathInv Agente.reset
    simp
  · unfold behaviorPathInv Agente.init
    simp
  · have hd : (0 : ℚ) < ((max s.path.length 1 : ℕ) : ℚ) := by
      exact_mod_cast lt_of_lt_of_le one_pos (le_max_right s.path.length 1)
    rw [div_le_one hd]
    exact_mod_cast le_trans hcard (le_max_left _ _)

/-- C10 witness: the invariant at the fresh agent and its preservation
through one observation carrying a position. -/
theorem C10_behavior_path_invariant_witness :
    behaviorPathInv Agente.init ∧
    (behaviorPathInv (Agente.observacao Agente.init obsExemplo) ∧
     behaviorPathInv (Agente.reset Agente.init) ∧
     behaviorPathInv Agente.init ∧
     Agente.init.behavior.card ≤ Agente.init.path.length ∧
     (Agente.init.behavior.card : ℚ) / ((max Agente.init.path.length 1 : ℕ) : ℚ) ≤ 1) :=
  ⟨by unfold behaviorPathInv; decide,
   C10_behavior_path_invariant Agente.init obsExemplo (by unfold behaviorPathInv; decide)⟩

/-- One archive update appends exactly `min 5 (population size)` records. -/
lemma atualizarArquivo_length (arquivo : List (Finset (ℤ × ℤ))) (pop : List EvoState) :
    (atualizarArquivo arquivo pop).length = arquivo.length + min 5 pop.length := by
  simp only [atualizarArquivo, List.length_append, List.length_map, List.length_take,
    List.length_mergeSort]
  omega

/-- Folding archive updates over any sequence of generations never shrinks
the archive. -/
lemma foldl_atualizarArquivo_le (gens : List (List EvoState)) :
    ∀ arquivo : List (Finset (ℤ × ℤ)),
      arquivo.length ≤ (gens.foldl atualizarArquivo arquivo).length := by
  induction gens with
  | nil => intro a; simp
  | cons g gs ih =>
    intro a
    rw [List.foldl_cons]
    refine le_trans ?_ (ih (atualizarArquivo a g))
    rw [atualizarArquivo_length]
    omega

/-- C6: each generation's archive update appends exactly
`min 5 (population size)` behaviour records, the previous archive survives
as an unchanged prefix (append-only), the appended records are the
behaviours of the top individuals of the pure-novelty descending ranking,
and across any sequence of generations the archive length is
non-decreasing. -/
theorem C6_archive_monotonicity (arquivo : List (Finset (ℤ × ℤ)))
    (pop : List EvoState) (gens : List (List EvoState)) :
    (atualizarArquivo arquivo pop).length = arquivo.length + min 5 pop.length ∧
    (atualizarArquivo arquivo pop).take arquivo.length = arquivo ∧
    (atualizarArquivo arquivo pop).drop arquivo.length =
      ((pop.mergeSort (fun a b => decide (b.base.novelty_score ≤ a.base.novelty_score))).take
        (min 5 pop.length)).map (fun a => a.base.behavior) ∧
    arquivo.length ≤ (gens.foldl atualizarArquivo arquivo).length := by
  refine ⟨atualizarArquivo_length arquivo pop, ?_, ?_, foldl_atualizarArquivo_le gens arquivo⟩
  · exact List.take_left arquivo _
  · show (arquivo ++ _).drop arquivo.length = _
    rw [List.drop_left, List.length_mergeSort]

/-- Index-wise description of a single-point crossover product: before the
cut point the gene comes from the first list, from the cut point on it
comes from the second. -/
lemma mix_getD (a b : List Direcao) (point i : ℕ) (hpt : point ≤ a.length) :
    (a.take point ++ b.drop point).getD i Direcao.PARADO =
      if i < point then a.getD i Direcao.PARADO else b.getD i Direcao.PARADO := by
  have hlen : (a.take point).length = point := by
    rw [List.length_take]; omega
  by_cases hi : i < point
  · rw [if_pos hi, List.getD_eq_getElem?_getD, List.getD_eq_getElem?_getD,
      List.getElem?_append_left (by rw [hlen]; exact hi), List.getElem?_take, if_pos hi]
  · rw [if_neg hi, List.getD_eq_getElem?_getD, List.getD_eq_getElem?_getD,
      List.getElem?_append_right (by rw [hlen]; omega), hlen, List.getElem?_drop]
    congr 2
    omega

/-- C5 counterexample: the claim promises cloning whenever EITHER parent's
genotype has fewer than 2 genes, but with `parent1 = [NORTE, SUL]` and
`parent2 = [ESTE]` (one gene) the code still performs the cut — here at
the only admissible point, `random.randint(1, 1) = 1` — and produces a
first child with genotype `[NORTE]`, which is a clone of neither parent. -/
theorem C5_counterexample :
    (Evo.init [Direcao.ESTE] (1/20)).genotype.length < 2 ∧
    (crossover (Evo.init [Direcao.NORTE, Direcao.SUL] (1/20))
        (Evo.init [Direcao.ESTE] (1/20)) 1).1.genotype = [Direcao.NORTE] ∧
    (crossover (Evo.init [Direcao.NORTE, Direcao.SUL] (1/20))
        (Evo.init [Direcao.ESTE] (1/20)) 1).1.genotype ≠
      (Evo.init [Direcao.NORTE, Direcao.SUL] (1/20)).genotype ∧
    (crossover (Evo.init [Direcao.NORTE, Direcao.SUL] (1/20))
        (Evo.init [Direcao.ESTE] (1/20)) 1).1.genotype ≠
      (Evo.init [Direcao.ESTE] (1/20)).genotype := by
  decide

/-- C5 (amended): for two parents whose genotypes both have length
`L ≥ 2` and a cut point in `[1, L-1]` (the range of
`random.randint(1, L-1)`), single-point crossover produces
child1 = parent1-prefix + parent2-suffix and
child2 = parent2-prefix + parent1-suffix, both of length exactly `L`,
every child gene coming from one of the two parents at the same index;
the degenerate cloning branch triggers exactly when the FIRST parent's
genotype has fewer than 2 genes (a short second parent alone does not
trigger it). -/
theorem C5_crossover_length_preservation (p1 p2 : EvoState) (point L : ℕ)
    (h1 : p1.genotype.length = L) (h2 : p2.genotype.length = L) (hL : 2 ≤ L)
    (hp1 : 1 ≤ point) (hp2 : point ≤ L - 1) :
    (crossover p1 p2 point).1.genotype = p1.genotype.take point ++ p2.genotype.drop point ∧
    (crossover p1 p2 point).2.genotype = p2.genotype.take point ++ p1.genotype.drop point ∧
    (crossover p1 p2 point).1.genotype.length = L ∧
    (crossover p1 p2 point).2.genotype.length = L ∧
    genesFromParents (crossover p1 p2 point).1.genotype p1.genotype p2.genotype ∧
    genesFromParents (crossover p1 p2 point).2.genotype p1.genotype p2.genotype ∧
    cloneGuard := by
  have hno : ¬p1.genotype.length < 2 := by omega
  have hc : crossover p1 p2 point =
      (Evo.init (p1.genotype.take point ++ p2.genotype.drop point) p1.taxa_mutacao,
       Evo.init (p2.genotype.take point ++ p1.genotype.drop point) p2.taxa_mutacao) := by
    simp [crossover, hno]
  have hpt1 : point ≤ p1.genotype.length := by omega
  have hpt2 : point ≤ p2.genotype.length := by omega
  refine ⟨by rw [hc]; rfl, by rw [hc]; rfl, ?_, ?_, ?_, ?_, ?_⟩
  · rw [hc]
    show (p1.genotype.take point ++ p2.genotype.drop point).length = L
    rw [List.length_append, List.length_take, List.length_drop]
    omega
  · rw [hc]
    show (p2.genotype.take point ++ p1.genotype.drop point).length = L
    rw [List.length_append, List.length_take, List.length_drop]
    omega
  · rw [hc]
    unfold genesFromParents
    intro i hi
    show (p1.genotype.take point ++ p2.genotype.drop point).getD i Direcao.PARADO = _ ∨
      (p1.genotype.take point ++ p2.genotype.drop point).getD i Direcao.PARADO = _
    rw [mix_getD _ _ _ _ hpt1]
    by_cases hip : i < point
    · left; rw [if_pos hip]
    · right; rw [if_neg hip]
  · rw [hc]
    unfold genesFromParents
    intro i hi
    show (p2.genotype.take point ++ p1.genotype.drop point).getD i Direcao.PARADO = _ ∨
      (p2.genotype.take point ++ p1.genotype.drop point).getD i Direcao.PARADO = _
    rw [mix_getD _ _ _ _ hpt2]
    by_cases hip : i < point
    · right; rw [if_pos hip]
    · left; rw [if_neg hip]
  · unfold cloneGuard
    intro q1 q2 pt hq
    simp [crossover, hq]

/-- First parent used in the C5 witness. -/
def p1W : EvoState := Evo.init [Direcao.NORTE, Direcao.SUL, Direcao.ESTE] 0

/-- Second parent used in the C5 witness. -/
def p2W : EvoState := Evo.init [Direcao.OESTE, Direcao.OESTE, Direcao.SUL] 0

/-- C5 witness: two length-3 parents cut at point 2. -/
theorem C5_crossover_length_preservation_witness :
    p1W.genotype.length = 3 ∧ p2W.genotype.length = 3 ∧ 2 ≤ 3 ∧ 1 ≤ 2 ∧ 2 ≤ 3 - 1 ∧
    ((crossover p1W p2W 2).1.genotype = p1W.genotype.take 2 ++ p2W.genotype.drop 2 ∧
     (crossover p1W p2W 2).2.genotype = p2W.genotype.take 2 ++ p1W.genotype.drop 2 ∧
     (crossover p1W p2W 2).1.genotype.length = 3 ∧
     (crossover p1W p2W 2).2.genotype.length = 3 ∧
     genesFromParents (crossover p1W p2W 2).1.genotype p1W.genotype p2W.genotype ∧
     genesFromParents (crossover p1W p2W 2).2.genotype p1W.genotype p2W.genotype ∧
     cloneGuard) :=
  ⟨rfl, rfl, by decide, by decide, by decide,
   C5_crossover_length_preservation p1W p2W 2 3 rfl rfl (by decide) (by decide) (by decide)⟩

end AAProjeto
